/-
Verification of the natural-language specification of the python-backend-hw
repository against a shallow Lean embedding of its two source programs:

* `src/hw1/app.py` — a raw ASGI application exposing numeric endpoints
  (`/factorial`, `/fibonacci/{n}`, `/mean`); embedded in namespace `Hw1`.
* `src/hw2/hw/shop_api/main.py` — a FastAPI/SQLAlchemy shop API managing
  Items and Carts; embedded in namespace `Shop`.

Python `float` arithmetic on prices and means is modelled by exact
rationals (`Rat`); every numeric value appearing in the claims is exactly
representable, so no rounding behaviour is at stake.  The SQLAlchemy store
is modelled as explicit lists of rows, with `.first()` becoming
`List.find?` and ORM row updates becoming first-match list updates.
-/
import Mathlib

namespace Hw1

/-- A JSON value, rich enough for the bodies the `/mean` endpoint can
receive.  Arrays may hold arbitrary JSON values so that non-numeric
elements (which make Python's `sum` raise `TypeError`) are representable. -/
inductive Json where
  | null : Json
  | jbool : Bool → Json
  | jnum : Rat → Json
  | jstr : String → Json
  | jarr : List Json → Json
  | jobj : List (String × Json) → Json

/-- A response of the numeric protocol layer: HTTP status, the `message`
field, and the `result` field (a string for `/fibonacci`). -/
structure Resp where
  status : Nat
  message : String
  result : Option String
deriving DecidableEq, Repr

/-- `int(s)` applied to a list of ASCII digit characters. -/
def digitsToNat (cs : List Char) : Nat :=
  cs.foldl (fun a c => 10 * a + (c.toNat - 48)) 0

/-- Model of `re.fullmatch(r"-?\d+", s)` followed by `int(s)` (app.py
lines 64-69): `some n` exactly when the path segment is an optional minus
sign followed by one or more digits, `none` otherwise. -/
def parseIntSeg (s : String) : Option Int :=
  match s.data with
  | [] => none
  | '-' :: rest =>
    if rest.isEmpty || !rest.all Char.isDigit then none
    else some (-(digitsToNat rest : Int))
  | cs =>
    if cs.all Char.isDigit then some (digitsToNat cs) else none

/-- The loop `a, b = 0, 1; for _ in range(n): a, b = b, a + b` of the
`/fibonacci` handler (app.py lines 76-78): returns the final `(a, b)`. -/
def fibLoop : Nat → Nat × Nat
  | 0 => (0, 1)
  | n + 1 =>
    let p := fibLoop n
    (p.2, p.1 + p.2)

/-- The mathematical Fibonacci sequence under the spec's indexing:
`fib 0 = 0`, `fib 1 = 1`. -/
def fib : Nat → Nat
  | 0 => 0
  | 1 => 1
  | n + 2 => fib n + fib (n + 1)

/-- The `/fibonacci/{n}` handler (app.py lines 57-79) applied to the path
segment `{n}`.  Segment failing the integer regex: 422; negative integer:
400; otherwise 200 with `str(b)` where `b` is the second component left by
`fibLoop`. -/
def fibonacciRoute (seg : String) : Resp :=
  match parseIntSeg seg with
  | none => ⟨422, "n should be a digit", none⟩
  | some n =>
    if n < 0 then ⟨400, "n should be >= 0", none⟩
    else ⟨200, "success", some (toString (fibLoop n.toNat).2)⟩

theorem fibLoop_eq (n : Nat) : fibLoop n = (fib n, fib (n + 1)) := by
  induction n with
  | zero => rfl
  | succ k ih => simp [fibLoop, ih, fib]

/-- `args is None` (app.py line 92): true exactly for JSON `null`. -/
def isNull : Json → Bool
  | .null => true
  | _ => false

/-- `len(args)` (app.py line 97): defined for arrays, strings and objects;
`none` models the `TypeError` raised on numbers, booleans and `null`. -/
def pyLen : Json → Option Nat
  | .jarr xs => some xs.length
  | .jstr s => some s.length
  | .jobj kvs => some kvs.length
  | _ => none

/-- `sum(args)` over the elements of a JSON array (app.py line 103):
numbers add their value and booleans their integer value (Python `bool`
is an `int`); any other element makes `sum` raise, modelled as `none`. -/
def pySum : List Json → Option Rat
  | [] => some 0
  | .jnum q :: rest => (pySum rest).map (fun s => q + s)
  | .jbool b :: rest => (pySum rest).map (fun s => (if b then (1 : Rat) else 0) + s)
  | _ => none

/-- A `/mean` response: status, message, and the numeric `result`. -/
structure MeanResp where
  status : Nat
  message : String
  result : Option Rat
deriving DecidableEq, Repr

/-- The `/mean` handler (app.py lines 81-103) applied to the parsed JSON
body.  `args is None` gives 422; then `len(args) == 0` gives 400 (a
`TypeError` from `len` on a number or boolean propagates to the
`except`-block's 500); otherwise `sum(args) / len(args)` is returned, with
a `TypeError` from `sum` (non-array of positive length, or an array with a
non-numeric element) again giving 500.  The 500 message's exception
detail suffix is abstracted away. -/
def meanRoute (body : Json) : MeanResp :=
  if isNull body then ⟨422, "should be array of floats", none⟩
  else
    match pyLen body with
    | none => ⟨500, "Internal server error", none⟩
    | some 0 => ⟨400, "array should not be empty", none⟩
    | some len =>
      match body with
      | .jarr xs =>
        match pySum xs with
        | some s => ⟨200, "success", some (s / len)⟩
        | none => ⟨500, "Internal server error", none⟩
      | _ => ⟨500, "Internal server error", none⟩

end Hw1

namespace Shop

/-- A row of the `items` table (main.py lines 43-49): integer primary key
`id`, `name`, float `price` and the soft-delete flag `deleted`. -/
structure Item where
  id : Nat
  name : String
  price : Rat
  deleted : Bool
deriving DecidableEq, Repr

/-- A row of the `cart_items` association table (main.py lines 34-40). -/
structure CartItemRow where
  cart_id : Nat
  item_id : Nat
  quantity : Nat
deriving DecidableEq, Repr

/-- The database state: the `items` table, the `carts` table (a cart row
is just its id) and the `cart_items` table, each in insertion order. -/
structure DB where
  items : List Item
  carts : List Nat
  cart_items : List CartItemRow
deriving DecidableEq, Repr

/-- `db.query(Item).filter(Item.id == id).first()`. -/
def findItem (db : DB) (id : Nat) : Option Item :=
  db.items.find? (fun it => it.id == id)

/-- The association rows of one cart, in insertion order:
`cart_items.select().where(cart_items.c.cart_id == self.id)`. -/
def cartRows (db : DB) (cartId : Nat) : List CartItemRow :=
  db.cart_items.filter (fun r => r.cart_id == cartId)

/-- `Cart.add_item` (main.py lines 66-88) acting on the `cart_items`
table: if a row for `(cartId, itemId)` exists, every such row (the
primary key makes it unique) gets quantity `first.quantity + 1`;
otherwise a fresh row with quantity 1 is inserted. -/
def addItemRows (rows : List CartItemRow) (cartId itemId : Nat) : List CartItemRow :=
  match rows.find? (fun r => r.cart_id == cartId && r.item_id == itemId) with
  | some r0 =>
    rows.map (fun r =>
      if r.cart_id == cartId && r.item_id == itemId then
        { r with quantity := r0.quantity + 1 }
      else r)
  | none => rows ++ [⟨cartId, itemId, 1⟩]

/-- `Cart.quantity` (main.py lines 90-100): total of `row.quantity` over
the cart's rows whose item resolves and is not deleted. -/
def cartQuantity (db : DB) (cartId : Nat) : Nat :=
  (cartRows db cartId).foldl
    (fun total r =>
      match findItem db r.item_id with
      | some item => if item.deleted then total else total + r.quantity
      | none => total)
    0

/-- `Cart.price` (main.py lines 102-112): total of
`row.quantity * item.price` over the cart's rows whose item resolves and
is not deleted. -/
def cartPrice (db : DB) (cartId : Nat) : Rat :=
  (cartRows db cartId).foldl
    (fun total r =>
      match findItem db r.item_id with
      | some item => if item.deleted then total else total + r.quantity * item.price
      | none => total)
    0

/-- One entry of a serialized cart's `items` list. -/
structure CartEntry where
  id : Nat
  name : String
  quantity : Nat
  available : Bool
deriving DecidableEq, Repr

/-- A serialized cart, as returned by `Cart.serialize`. -/
structure CartView where
  id : Nat
  price : Rat
  items : List CartEntry
deriving DecidableEq, Repr

/-- `Cart.serialize` (main.py lines 114-136): the cart's id, its computed
price, and one entry per association row whose item resolves, carrying
`available = not item.deleted`. -/
def cartSerialize (db : DB) (cartId : Nat) : CartView :=
  { id := cartId
    price := cartPrice db cartId
    items :=
      (cartRows db cartId).filterMap (fun r =>
        (findItem db r.item_id).map (fun item =>
          ⟨item.id, item.name, r.quantity, !item.deleted⟩)) }

/-- `GET /cart/{id}` (main.py lines 172-181): the serialized cart when the
id exists, `none` for the 422 "no such id" response. -/
def get_cart_by_id (db : DB) (id : Nat) : Option CartView :=
  if db.carts.contains id then some (cartSerialize db id) else none

/-- `GET /cart` (main.py lines 184-209): `offset`/`limit` slicing over the
raw carts table first, then the price/quantity range filters, then
serialization. -/
def get_cart_with_params (db : DB) (offset limit : Nat)
    (min_price max_price : Option Rat) (min_quantity max_quantity : Option Nat) :
    List CartView :=
  let carts := (db.carts.drop offset).take limit
  (carts.filter (fun cid =>
    let price := cartPrice db cid
    let quantity := cartQuantity db cid
    (match min_price with | none => true | some m => decide (m ≤ price)) &&
    (match max_price with | none => true | some m => decide (price ≤ m)) &&
    (match min_quantity with | none => true | some m => decide (m ≤ quantity)) &&
    (match max_quantity with | none => true | some m => decide (quantity ≤ m)))).map
    (cartSerialize db)

/-- Outcome of `POST /cart/{cart_id}/add/{item_id}`. -/
inductive AddResp where
  | ok
  | noCart
  | noItem
deriving DecidableEq, Repr

/-- `POST /cart/{cart_id}/add/{item_id}` (main.py lines 212-231): 422 when
the cart id or the item id does not resolve, otherwise `Cart.add_item`. -/
def post_cart (db : DB) (cartId itemId : Nat) : DB × AddResp :=
  if !db.carts.contains cartId then (db, .noCart)
  else
    match findItem db itemId with
    | none => (db, .noItem)
    | some _ => ({ db with cart_items := addItemRows db.cart_items cartId itemId }, .ok)

/-- The id SQLite's autoincrement assigns to a fresh `items` row. -/
def nextItemId (db : DB) : Nat :=
  (db.items.foldl (fun m it => max m it.id) 0) + 1

/-- `POST /item` (main.py lines 239-247): stores a new row with the given
name and price — the price is accepted as given, no validation — and
`deleted` at its column default `false`. -/
def add_item (db : DB) (name : String) (price : Rat) : DB × Item :=
  let it : Item := ⟨nextItemId db, name, price, false⟩
  ({ db with items := db.items ++ [it] }, it)

/-- `GET /item/{id}` (main.py lines 250-257):
`filter(Item.id == id, Item.deleted == False).first()`; `none` is the
404 "not found" response. -/
def get_item_by_id (db : DB) (id : Nat) : Option Item :=
  db.items.find? (fun it => it.id == id && !it.deleted)

/-- `GET /item` (main.py lines 260-281): the `show_deleted` filter, then
the price range filters, then `offset`/`limit` slicing. -/
def get_item_query (db : DB) (offset limit : Nat)
    (min_price max_price : Option Rat) (show_deleted : Bool) : List Item :=
  let q1 := if show_deleted then db.items else db.items.filter (fun it => !it.deleted)
  let q2 := match min_price with
    | none => q1
    | some m => q1.filter (fun it => decide (m ≤ it.price))
  let q3 := match max_price with
    | none => q2
    | some m => q2.filter (fun it => decide (it.price ≤ m))
  (q3.drop offset).take limit

/-- The filter stage of `GET /item`: the query built on main.py lines
269-278 before `offset`/`limit` are applied. -/
def itemFilters (db : DB) (min_price max_price : Option Rat)
    (show_deleted : Bool) : List Item :=
  let q1 := if show_deleted then db.items else db.items.filter (fun it => !it.deleted)
  let q2 := match min_price with
    | none => q1
    | some m => q1.filter (fun it => decide (m ≤ it.price))
  match max_price with
  | none => q2
  | some m => q2.filter (fun it => decide (it.price ≤ m))

/-- The Item listing as claim C2 and spec §4.4 word it, for comparison
with `get_item_query` (which is translated from the source):
offset/limit slicing over the raw ordered collection FIRST, then the
numeric range filters, then the `show_deleted` filter. -/
def get_item_query_specOrder (db : DB) (offset limit : Nat)
    (min_price max_price : Option Rat) (show_deleted : Bool) : List Item :=
  let q1 := (db.items.drop offset).take limit
  let q2 := match min_price with
    | none => q1
    | some m => q1.filter (fun it => decide (m ≤ it.price))
  let q3 := match max_price with
    | none => q2
    | some m => q2.filter (fun it => decide (it.price ≤ m))
  if show_deleted then q3 else q3.filter (fun it => !it.deleted)

/-- Update the first row with the given id — the row `.first()` returns
and the ORM then mutates (ids are unique in practice, being the primary
key, but no uniqueness is assumed here). -/
def updateFirstItem : List Item → Nat → (Item → Item) → List Item
  | [], _, _ => []
  | it :: rest, id, f =>
    if it.id == id then f it :: rest else it :: updateFirstItem rest id f

/-- `PUT /item/{id}` (main.py lines 284-297): create the row at that id if
absent (with `deleted` at its default `false`), else overwrite name and
price of the existing row, leaving `deleted` untouched; returns the
serialized item. -/
def put_item (db : DB) (id : Nat) (name : String) (price : Rat) : DB × Item :=
  match findItem db id with
  | none =>
    let it : Item := ⟨id, name, price, false⟩
    ({ db with items := db.items ++ [it] }, it)
  | some it0 =>
    ({ db with items := updateFirstItem db.items id (fun it => { it with name := name, price := price }) },
      { it0 with name := name, price := price })

/-- The validated `ItemUpdate` payload (main.py lines 300-303): `name` and
`price`, independently optional. -/
structure ItemUpdate where
  name : Option String
  price : Option Rat
deriving DecidableEq, Repr

/-- Outcome of the `PATCH /item/{id}` pipeline. -/
inductive PatchResp where
  | ok (item : Item)
  | notFound
  | notModified
  | validationError
deriving DecidableEq, Repr

/-- `patch_item` (main.py lines 306-329), after validation: 422 "not
found" when the id does not resolve; 304 "not modified" when the row is
soft-deleted, with no data change; otherwise each supplied field is
applied and the updated row returned. -/
def patch_item (db : DB) (id : Nat) (u : ItemUpdate) : DB × PatchResp :=
  match findItem db id with
  | none => (db, .notFound)
  | some it0 =>
    if it0.deleted then (db, .notModified)
    else
      let f := fun (it : Item) =>
        { it with name := u.name.getD it.name, price := u.price.getD it.price }
      ({ db with items := updateFirstItem db.items id f }, .ok (f it0))

/-- A raw JSON field value of a PATCH payload body. -/
inductive JVal where
  | jstr (s : String)
  | jnum (q : Rat)
deriving DecidableEq, Repr

/-- Pydantic validation of a PATCH body against `ItemUpdate`, whose
`model_config = ConfigDict(extra="forbid")` (main.py line 303): any key
other than `name` or `price` is rejected, `name` must be a string and
`price` a number (pydantic's lax-mode string-to-number coercions are not
modelled; they play no role in the claims).  `none` is the framework's
422 validation error, produced before the handler body runs. -/
def parseItemUpdate (payload : List (String × JVal)) : Option ItemUpdate :=
  if !payload.all (fun kv => kv.1 == "name" || kv.1 == "price") then none
  else
    match payload.lookup "name", payload.lookup "price" with
    | some (.jnum _), _ => none
    | _, some (.jstr _) => none
    | nameV, priceV =>
      some
        { name := nameV.bind (fun v => match v with | .jstr s => some s | _ => none)
          price := priceV.bind (fun v => match v with | .jnum q => some q | _ => none) }

/-- The full `PATCH /item/{id}` pipeline: pydantic validation of the raw
payload, then `patch_item`. -/
def patch_item_endpoint (db : DB) (id : Nat) (payload : List (String × JVal)) :
    DB × PatchResp :=
  match parseItemUpdate payload with
  | none => (db, .validationError)
  | some u => patch_item db id u

/-- Set `deleted = True` on the first row with the given id — the row
`.first()` returns and the ORM mutates. -/
def setDeletedFirst : List Item → Nat → List Item
  | [], _ => []
  | it :: rest, id =>
    if it.id == id then { it with deleted := true } :: rest
    else it :: setDeletedFirst rest id

/-- Outcome of `DELETE /item/{id}`. -/
inductive DeleteResp where
  | deletedOk
  | notFound
deriving DecidableEq, Repr

/-- `DELETE /item/{id}` (main.py lines 332-343): when any row with that id
exists — soft-deleted or not — set its `deleted` flag and answer 200
"item deleted"; otherwise 404 "not found". -/
def delete_item (db : DB) (id : Nat) : DB × DeleteResp :=
  match findItem db id with
  | some _ => ({ db with items := setDeletedFirst db.items id }, .deletedOk)
  | none => (db, .notFound)

/-- Quantity stored for `(cartId, itemId)` in the association table —
`items[x]` in the claims' notation: the quantity of the first (under the
primary key, the only) matching row, `none` when no row exists. -/
def rowQuantity (rows : List CartItemRow) (cartId itemId : Nat) : Option Nat :=
  (rows.find? (fun r => r.cart_id == cartId && r.item_id == itemId)).map
    (fun r => r.quantity)

/-- Store with items A (price 10) and B (price 20), one cart (id 1), and
the association rows produced by adding A, then B, then A again. -/
def storeAB : DB :=
  { items := [⟨1, "A", 10, false⟩, ⟨2, "B", 20, false⟩]
    carts := [1]
    cart_items := addItemRows (addItemRows (addItemRows [] 1 1) 1 2) 1 1 }

/-- Store with three items; the items priced 100 sit behind a cheaper one,
so filter order against slicing order is observable. -/
def itemStore3 : DB :=
  { items := [⟨1, "a", 5, false⟩, ⟨2, "b", 100, false⟩, ⟨3, "c", 100, false⟩]
    carts := []
    cart_items := [] }

/-- Store with two carts where only the second cart (id 2) holds an item,
so a window of size 1 at offset 0 misses every matching cart. -/
def cartStore2 : DB :=
  { items := [⟨1, "x", 60, false⟩]
    carts := [1, 2]
    cart_items := [⟨2, 1, 1⟩] }

/-- Store holding one soft-deleted item referenced twice by cart 7. -/
def deletedStore : DB :=
  { items := [⟨1, "g", 5, true⟩]
    carts := [7]
    cart_items := [⟨7, 1, 2⟩] }

/-- Store holding a single live item with id 1. -/
def liveStore : DB :=
  { items := [⟨1, "x", 5, false⟩]
    carts := []
    cart_items := [] }

end Shop

namespace Shop

theorem foldl_add_eq {β : Type} [AddCommMonoid β] (g : CartItemRow → β)
    (l : List CartItemRow) (init : β) :
    l.foldl (fun a r => a + g r) init = init + (l.map g).sum := by
  induction l generalizing init with
  | nil => simp
  | cons hd tl ih => simp [List.foldl_cons, ih, add_assoc]

/-- Per-row contribution to `Cart.quantity`: zero unless the row's item
resolves to a non-deleted record. -/
def quantityContrib (db : DB) (r : CartItemRow) : Nat :=
  match findItem db r.item_id with
  | some item => if item.deleted then 0 else r.quantity
  | none => 0

/-- Per-row contribution to `Cart.price`: zero unless the row's item
resolves to a non-deleted record. -/
def priceContrib (db : DB) (r : CartItemRow) : Rat :=
  match findItem db r.item_id with
  | some item => if item.deleted then 0 else r.quantity * item.price
  | none => 0

theorem cartQuantity_eq_sum (db : DB) (cid : Nat) :
    cartQuantity db cid = ((cartRows db cid).map (quantityContrib db)).sum := by
  have hfun :
      (fun (total : Nat) (r : CartItemRow) =>
          match findItem db r.item_id with
          | some item => if item.deleted then total else total + r.quantity
          | none => total) =
        fun total r => total + quantityContrib db r := by
    funext total r
    simp only [quantityContrib]
    rcases findItem db r.item_id with _ | item
    · simp
    · by_cases hd : item.deleted <;> simp [hd]
  rw [cartQuantity, hfun, foldl_add_eq]
  simp

theorem cartPrice_eq_sum (db : DB) (cid : Nat) :
    cartPrice db cid = ((cartRows db cid).map (priceContrib db)).sum := by
  have hfun :
      (fun (total : Rat) (r : CartItemRow) =>
          match findItem db r.item_id with
          | some item => if item.deleted then total else total + r.quantity * item.price
          | none => total) =
        fun total r => total + priceContrib db r := by
    funext total r
    simp only [priceContrib]
    rcases findItem db r.item_id with _ | item
    · simp
    · by_cases hd : item.deleted <;> simp [hd]
  rw [cartPrice, hfun, foldl_add_eq]
  simp

theorem find?_map_pres {α : Type} (p : α → Bool) (f : α → α)
    (hp : ∀ a, p (f a) = p a) (l : List α) :
    (l.map f).find? p = (l.find? p).map f := by
  induction l with
  | nil => simp
  | cons hd tl ih =>
    by_cases hpa : p hd = true
    · rw [List.map_cons, List.find?_cons_of_pos _ (by rw [hp]; exact hpa),
        List.find?_cons_of_pos _ hpa]
      simp
    · rw [List.map_cons, List.find?_cons_of_neg _ (by rw [hp]; simpa using hpa),
        List.find?_cons_of_neg _ (by simpa using hpa), ih]

/-- Effect of `Cart.add_item` on the added key: a fresh entry gets
quantity 1, an existing entry is incremented. -/
theorem rowQuantity_addItemRows_same (rows : List CartItemRow) (c x : Nat) :
    rowQuantity (addItemRows rows c x) c x =
      some ((rowQuantity rows c x).getD 0 + 1) := by
  rcases h : rows.find? (fun r => r.cart_id == c && r.item_id == x) with _ | r0
  · rw [addItemRows, h, rowQuantity, List.find?_append, h]
    simp [rowQuantity, h]
  · have hr0 := List.find?_some h
    simp only [Bool.and_eq_true, beq_iff_eq] at hr0
    rw [addItemRows, h, rowQuantity,
      find?_map_pres _ _ (fun a => by by_cases hpa : (a.cart_id == c && a.item_id == x) = true <;> simp [hpa]) rows,
      h]
    simp [rowQuantity, h, hr0.1, hr0.2]

/-- Effect of `Cart.add_item` on every other key of the same cart: its
quantity is untouched. -/
theorem rowQuantity_addItemRows_other (rows : List CartItemRow) (c x y : Nat)
    (hxy : y ≠ x) :
    rowQuantity (addItemRows rows c x) c y = rowQuantity rows c y := by
  have hxyb : (x == y) = false := beq_eq_false_iff_ne.mpr (Ne.symm hxy)
  rcases h : rows.find? (fun r => r.cart_id == c && r.item_id == x) with _ | r0
  · rw [addItemRows, h, rowQuantity, List.find?_append]
    rcases hy : rows.find? (fun r => r.cart_id == c && r.item_id == y) with _ | r1
    · simp [rowQuantity, hy, List.find?, hxyb]
    · simp [rowQuantity, hy]
  · rw [addItemRows, h, rowQuantity,
      find?_map_pres _ _ (fun a => by by_cases hpa : (a.cart_id == c && a.item_id == x) = true <;> simp [hpa]) rows]
    rcases hy : rows.find? (fun r => r.cart_id == c && r.item_id == y) with _ | r1
    · simp [rowQuantity, hy]
    · have hy1 := List.find?_some hy
      simp only [Bool.and_eq_true, beq_iff_eq] at hy1
      have hx1 : ¬(r1.cart_id = c ∧ r1.item_id = x) := by
        rintro ⟨-, h2⟩
        exact hxy (hy1.2 ▸ h2.symm ▸ rfl)
      simp [rowQuantity, hy, hx1]

/-- Updating the row `.first()` found keeps the updated row in the table. -/
theorem mem_updateFirstItem (items : List Item) (id : Nat) (f : Item → Item)
    (it0 : Item) (h : items.find? (fun it => it.id == id) = some it0) :
    f it0 ∈ updateFirstItem items id f := by
  induction items with
  | nil => simp [List.find?] at h
  | cons hd tl ih =>
    by_cases hid : (hd.id == id) = true
    · simp only [List.find?, hid, Option.some.injEq] at h
      cases h
      simp [updateFirstItem, hid]
    · have hid' : (hd.id == id) = false := by simpa using hid
      simp only [List.find?, hid'] at h
      simp only [updateFirstItem, hid', Bool.false_eq_true, if_false]
      exact List.mem_cons_of_mem _ (ih h)

/-- Soft-deleting moves the found row to its `deleted = true` copy. -/
theorem find?_setDeletedFirst (items : List Item) (id : Nat) (it0 : Item)
    (h : items.find? (fun it => it.id == id) = some it0) :
    (setDeletedFirst items id).find? (fun it => it.id == id) =
      some { it0 with deleted := true } := by
  induction items with
  | nil => simp [List.find?] at h
  | cons hd tl ih =>
    by_cases hid : (hd.id == id) = true
    · simp only [List.find?, hid, Option.some.injEq] at h
      cases h
      simp [setDeletedFirst, hid, List.find?]
    · have hid' : (hd.id == id) = false := by simpa using hid
      simp only [List.find?, hid'] at h
      simp only [setDeletedFirst, hid', Bool.false_eq_true, if_false, List.find?]
      exact ih h

/-- Soft-deleting twice does nothing more than soft-deleting once. -/
theorem setDeletedFirst_idem (items : List Item) (id : Nat) :
    setDeletedFirst (setDeletedFirst items id) id = setDeletedFirst items id := by
  induction items with
  | nil => rfl
  | cons hd tl ih =>
    by_cases hid : (hd.id == id) = true
    · rw [setDeletedFirst, if_pos hid, setDeletedFirst, if_pos (by simpa using hid)]
    · rw [setDeletedFirst, if_neg (by simpa using hid), setDeletedFirst,
        if_neg (by simpa using hid), ih]

/-- Soft-deleting when the found row is already deleted leaves the table
unchanged. -/
theorem setDeletedFirst_of_deleted (items : List Item) (id : Nat) (it0 : Item)
    (h : items.find? (fun it => it.id == id) = some it0)
    (hdel : it0.deleted = true) :
    setDeletedFirst items id = items := by
  induction items with
  | nil => rfl
  | cons hd tl ih =>
    by_cases hid : (hd.id == id) = true
    · simp only [List.find?, hid, Option.some.injEq] at h
      cases h
      rw [setDeletedFirst, if_pos hid]
      rcases it0 with ⟨a, b, p, d⟩
      simp only at hdel
      rw [hdel]
    · have hid' : (hd.id == id) = false := by simpa using hid
      simp only [List.find?, hid'] at h
      rw [setDeletedFirst, if_neg (by simpa using hid), ih h]

end Shop

/-- Claim C1, counterexample: the claim says `GET /fibonacci/10` yields
result "55" (the 10th Fibonacci number, 0-indexed with fib 0 = 0 and
fib 1 = 1), but the handler answers 200 with result "89" — the loop
returns its second accumulator `b`, which after n iterations holds
fib (n+1), not fib n. -/
theorem C1_counterexample :
    Hw1.fibonacciRoute "10" = ⟨200, "success", some "89"⟩ ∧
    toString (Hw1.fib 10) = "55" ∧
    (Hw1.fibonacciRoute "10").result ≠ some (toString (Hw1.fib 10)) := by
  refine ⟨by decide, by decide, by decide⟩

/-- Claim C1, amended: for every path segment that parses as a
non-negative integer n, `GET /fibonacci/{n}` returns 200 with the
stringified (n+1)-th Fibonacci number under 0-indexing with fib 0 = 0 and
fib 1 = 1 (in particular `GET /fibonacci/10` yields "89"); for every
segment parsing as a negative integer it returns 400, and for every
segment failing the integer regex it returns 422. -/
theorem C1_fibonacci_route (seg : String) :
    (∀ n : Int, Hw1.parseIntSeg seg = some n → 0 ≤ n →
      Hw1.fibonacciRoute seg =
        ⟨200, "success", some (toString (Hw1.fib (n.toNat + 1)))⟩) ∧
    (∀ n : Int, Hw1.parseIntSeg seg = some n → n < 0 →
      Hw1.fibonacciRoute seg = ⟨400, "n should be >= 0", none⟩) ∧
    (Hw1.parseIntSeg seg = none →
      Hw1.fibonacciRoute seg = ⟨422, "n should be a digit", none⟩) := by
  have hstep : ∀ n : Int, Hw1.parseIntSeg seg = some n →
      Hw1.fibonacciRoute seg =
        if n < 0 then ⟨400, "n should be >= 0", none⟩
        else ⟨200, "success", some (toString (Hw1.fibLoop n.toNat).2)⟩ := by
    intro n hparse
    rw [Hw1.fibonacciRoute, hparse]
  refine ⟨?_, ?_, ?_⟩
  · intro n hparse hnn
    rw [hstep n hparse, if_neg (not_lt.mpr hnn), Hw1.fibLoop_eq]
  · intro n hparse hneg
    rw [hstep n hparse, if_pos hneg]
  · intro hparse
    rw [Hw1.fibonacciRoute, hparse]

/-- Claim C1 witness: the amended theorem applied to the segment "10". -/
theorem C1_fibonacci_route_witness :
    Hw1.fibonacciRoute "10" = ⟨200, "success", some (toString (Hw1.fib 11))⟩ :=
  (C1_fibonacci_route "10").1 10 (by decide) (by decide)

/-- Claim C3: `POST /mean` answers 200 with the arithmetic mean for the
non-empty array [1,2,3] (result 2) and 400 for the empty array, as
claimed; but a non-array JSON body does not generally yield 422 — only
the body `null` does (the handler's check is `args is None`), while a
JSON number body reaches `len(args)`, raises `TypeError`, and is turned
into a 500 "Internal server error" by the outer except-block. -/
theorem C3_mean_route :
    Hw1.meanRoute (Hw1.Json.jarr [Hw1.Json.jnum 1, Hw1.Json.jnum 2, Hw1.Json.jnum 3]) =
      ⟨200, "success", some 2⟩ ∧
    Hw1.meanRoute (Hw1.Json.jarr []) = ⟨400, "array should not be empty", none⟩ ∧
    Hw1.meanRoute Hw1.Json.null = ⟨422, "should be array of floats", none⟩ ∧
    Hw1.meanRoute (Hw1.Json.jnum 5) = ⟨500, "Internal server error", none⟩ ∧
    (Hw1.meanRoute (Hw1.Json.jnum 5)).status ≠ 422 := by
  refine ⟨?_, rfl, rfl, rfl, by decide⟩
  simp only [Hw1.meanRoute, Hw1.isNull, Hw1.pyLen, Hw1.pySum, Bool.false_eq_true,
    if_false, Option.map_some, List.length_cons, List.length_nil]
  norm_num

/-- Claim C2, counterexample: on the Item listing endpoint the source
applies the price filters BEFORE offset/limit, not after.  On a store
where a cheap item precedes two items matching `min_price = 50`, the
endpoint fills the full `limit = 2` with the two matching items, while
the claimed slice-before-filter order would return only the single
matching item inside the first window. -/
theorem C2_counterexample :
    Shop.get_item_query Shop.itemStore3 0 2 (some 50) none false ≠
      Shop.get_item_query_specOrder Shop.itemStore3 0 2 (some 50) none false ∧
    (Shop.get_item_query Shop.itemStore3 0 2 (some 50) none false).length = 2 ∧
    (Shop.get_item_query_specOrder Shop.itemStore3 0 2 (some 50) none false).length = 1 := by
  refine ⟨by decide, by decide, by decide⟩

/-- Claim C2, amended: only the Cart listing endpoint applies offset/limit
slicing to the raw collection before its range filters, so its result
count can be smaller than limit even though a matching cart exists beyond
the sliced window (shown on a concrete two-cart store); the Item listing
endpoint applies the show_deleted and price filters before offset/limit,
so at offset 0 a result shorter than limit is already complete — raising
the limit returns the same list. -/
theorem C2_slicing_order :
    ((Shop.get_cart_with_params Shop.cartStore2 0 1 none none (some 1) none).length = 0 ∧
     (Shop.get_cart_with_params Shop.cartStore2 1 1 none none (some 1) none).length = 1) ∧
    (∀ (db : Shop.DB) (lim lim2 : Nat) (mp Mp : Option Rat) (sd : Bool),
      (Shop.get_item_query db 0 lim mp Mp sd).length < lim → lim ≤ lim2 →
      Shop.get_item_query db 0 lim2 mp Mp sd = Shop.get_item_query db 0 lim mp Mp sd) := by
  constructor
  · exact ⟨by decide, by decide⟩
  · intro db lim lim2 mp Mp sd hlen hle
    have heq : ∀ l : Nat, Shop.get_item_query db 0 l mp Mp sd =
        (Shop.itemFilters db mp Mp sd).take l := by
      intro l
      rw [Shop.get_item_query.eq_def, Shop.itemFilters.eq_def]
      simp only [List.drop_zero]
    rw [heq] at hlen
    rw [heq, heq]
    rw [List.length_take] at hlen
    have hflen : (Shop.itemFilters db mp Mp sd).length < lim := by omega
    rw [List.take_of_length_le (le_of_lt hflen),
      List.take_of_length_le (le_of_lt (lt_of_lt_of_le hflen hle))]

/-- Claim C2 witness: the Item-endpoint completeness part of the amended
theorem applied to the three-item store — two items match `min_price = 50`,
which is short of limit 3, and limit 5 returns the same two items. -/
theorem C2_slicing_order_witness :
    Shop.get_item_query Shop.itemStore3 0 5 (some 50) none false =
      Shop.get_item_query Shop.itemStore3 0 3 (some 50) none false :=
  C2_slicing_order.2 Shop.itemStore3 3 5 (some 50) none false (by decide) (by decide)

/-- Claim C4: cart quantity and price sum only over referenced items
whose current deleted flag is false, are zero for an empty cart, and
soft-deleting an item drops its contribution without mutating any cart's
stored rows; concretely, with items A (price 10) and B (price 20) and the
adds A, B, A, quantity is 3 and price 40, and after soft-deleting B the
serialization still lists B with available = false while quantity drops
to 2 and price to 20. -/
theorem C4_cart_totals :
    (∀ (db : Shop.DB) (cid : Nat), Shop.cartRows db cid = [] →
      Shop.cartQuantity db cid = 0 ∧ Shop.cartPrice db cid = 0) ∧
    (∀ (db : Shop.DB) (id : Nat),
      (Shop.delete_item db id).1.cart_items = db.cart_items ∧
      (Shop.delete_item db id).1.carts = db.carts) ∧
    (∀ (db : Shop.DB) (cid : Nat),
      Shop.cartQuantity db cid =
        ((Shop.cartRows db cid).map (Shop.quantityContrib db)).sum ∧
      Shop.cartPrice db cid =
        ((Shop.cartRows db cid).map (Shop.priceContrib db)).sum) ∧
    (Shop.cartQuantity Shop.storeAB 1 = 3 ∧
     Shop.cartPrice Shop.storeAB 1 = 40 ∧
     Shop.cartQuantity (Shop.delete_item Shop.storeAB 2).1 1 = 2 ∧
     Shop.cartSerialize (Shop.delete_item Shop.storeAB 2).1 1 =
       ⟨1, 20, [⟨1, "A", 2, true⟩, ⟨2, "B", 1, false⟩]⟩ ∧
     (Shop.delete_item Shop.storeAB 2).1.cart_items = Shop.storeAB.cart_items) := by
  refine ⟨?_, ?_, ?_, ?_, ?_, ?_, ?_, ?_⟩
  · intro db cid h
    exact ⟨by simp [Shop.cartQuantity, h], by simp [Shop.cartPrice, h]⟩
  · intro db id
    rcases hf : Shop.findItem db id with _ | it <;>
      simp [Shop.delete_item, hf]
  · intro db cid
    exact ⟨Shop.cartQuantity_eq_sum db cid, Shop.cartPrice_eq_sum db cid⟩
  · decide
  · simp [Shop.cartPrice, Shop.cartRows, Shop.storeAB, Shop.findItem,
      Shop.addItemRows, List.filter, List.find?]
    norm_num
  · decide
  · simp [Shop.cartSerialize, Shop.cartPrice, Shop.cartRows, Shop.storeAB,
      Shop.findItem, Shop.addItemRows, Shop.delete_item, Shop.setDeletedFirst,
      List.filter, List.find?, List.filterMap]
    norm_num
  · decide

/-- Claim C4 witness: the empty-cart part of the theorem applied to the
empty store and cart id 0. -/
theorem C4_cart_totals_witness :
    Shop.cartQuantity ⟨[], [], []⟩ 0 = 0 ∧ Shop.cartPrice ⟨[], [], []⟩ 0 = 0 :=
  C4_cart_totals.1 ⟨[], [], []⟩ 0 rfl

/-- Claim C5: a partial update on an item whose deleted flag is true
returns the distinct "not modified" outcome and leaves the store — and
with it the item's name and price — entirely unchanged. -/
theorem C5_patch_deleted (db : Shop.DB) (id : Nat) (u : Shop.ItemUpdate)
    (it : Shop.Item) (h1 : Shop.findItem db id = some it)
    (h2 : it.deleted = true) :
    Shop.patch_item db id u = (db, Shop.PatchResp.notModified) := by
  simp [Shop.patch_item, h1, h2]

/-- Claim C5 witness: the theorem applied to a store holding one
soft-deleted item and an update supplying a new name. -/
theorem C5_patch_deleted_witness :
    Shop.patch_item ⟨[⟨1, "x", 5, true⟩], [], []⟩ 1 ⟨some "y", none⟩ =
      (⟨[⟨1, "x", 5, true⟩], [], []⟩, Shop.PatchResp.notModified) :=
  C5_patch_deleted ⟨[⟨1, "x", 5, true⟩], [], []⟩ 1 ⟨some "y", none⟩
    ⟨1, "x", 5, true⟩ rfl rfl

/-- Claim C6, counterexample: no layer of the shop API validates price —
`ItemCreate.price` carries no bound — so creating an item with price -5
stores an item whose price is negative, violating the claimed
invariant. -/
theorem C6_counterexample :
    ((Shop.add_item ⟨[], [], []⟩ "x" (-5)).2.price < 0) ∧
    (Shop.add_item ⟨[], [], []⟩ "x" (-5)).2 ∈
      (Shop.add_item ⟨[], [], []⟩ "x" (-5)).1.items := by
  refine ⟨by decide, by decide⟩

/-- Claim C6, amended: price is accepted exactly as given — create
appends an item carrying the supplied price (negative included) and full
replace stores the supplied price on the (kept) row — so no non-negativity
invariant is enforced on stored prices. -/
theorem C6_price_accepted (db : Shop.DB) (id : Nat) (name : String) (price : Rat) :
    (Shop.add_item db name price).2.price = price ∧
    (Shop.add_item db name price).1.items = db.items ++ [(Shop.add_item db name price).2] ∧
    (Shop.put_item db id name price).2.price = price ∧
    (Shop.put_item db id name price).2 ∈ (Shop.put_item db id name price).1.items := by
  refine ⟨rfl, rfl, ?_, ?_⟩
  · rcases h : Shop.findItem db id with _ | it0 <;> simp [Shop.put_item, h]
  · rcases h : Shop.findItem db id with _ | it0
    · simp [Shop.put_item, h]
    · simp only [Shop.put_item, h]
      exact Shop.mem_updateFirstItem db.items id _ it0 h

/-- Claim C7: the single-item fetch answers "not found" exactly when the
id is absent or every stored item with that id is soft-deleted; the
single-cart fetch never hides an existing cart — it returns the
serialization, in which a resolving but deleted item still appears with
available = false, and the totals count only non-deleted items. -/
theorem C7_read_boundary (db : Shop.DB) (id cid : Nat) :
    (Shop.get_item_by_id db id = none ↔
      ∀ it ∈ db.items, it.id = id → it.deleted = true) ∧
    (db.carts.contains id = true →
      Shop.get_cart_by_id db id = some (Shop.cartSerialize db id)) ∧
    (∀ r ∈ Shop.cartRows db cid, ∀ it : Shop.Item,
      Shop.findItem db r.item_id = some it → it.deleted = true →
      (⟨it.id, it.name, r.quantity, false⟩ : Shop.CartEntry) ∈
        (Shop.cartSerialize db cid).items) ∧
    (Shop.cartQuantity db cid =
      ((Shop.cartRows db cid).map (Shop.quantityContrib db)).sum ∧
     Shop.cartPrice db cid =
      ((Shop.cartRows db cid).map (Shop.priceContrib db)).sum) := by
  refine ⟨?_, ?_, ?_, Shop.cartQuantity_eq_sum db cid, Shop.cartPrice_eq_sum db cid⟩
  · rw [Shop.get_item_by_id, List.find?_eq_none]
    constructor
    · intro h it hmem hid
      have hp := h it hmem
      simp only [Bool.and_eq_true, beq_iff_eq, Bool.not_eq_true', not_and] at hp
      have := hp hid
      simpa using this
    · intro h it hmem hp
      simp only [Bool.and_eq_true, beq_iff_eq, Bool.not_eq_true'] at hp
      exact absurd (h it hmem hp.1) (by simp [hp.2])
  · intro h
    have hmem : id ∈ db.carts := by simpa using h
    simp [Shop.get_cart_by_id, hmem]
  · intro r hr it hit hdel
    simp only [Shop.cartSerialize, List.mem_filterMap]
    exact ⟨r, hr, by rw [hit]; simp [hdel]⟩

/-- Claim C7 witness: on a store whose only item (id 1) is soft-deleted
and referenced twice by cart 7, the single-item fetch hides the item, the
cart fetch still returns the serialization, and that serialization lists
the deleted item with available = false. -/
theorem C7_read_boundary_witness :
    Shop.get_item_by_id Shop.deletedStore 1 = none ∧
    Shop.get_cart_by_id Shop.deletedStore 7 =
      some (Shop.cartSerialize Shop.deletedStore 7) ∧
    (⟨1, "g", 2, false⟩ : Shop.CartEntry) ∈
      (Shop.cartSerialize Shop.deletedStore 7).items :=
  ⟨(C7_read_boundary Shop.deletedStore 1 7).1.mpr (by decide),
   (C7_read_boundary Shop.deletedStore 7 7).2.1 (by decide),
   (C7_read_boundary Shop.deletedStore 7 7).2.2.1 ⟨7, 1, 2⟩ (by decide)
     ⟨1, "g", 5, true⟩ (by decide) rfl⟩

/-- Claim C8: a partial-update payload containing any field other than
name or price is rejected by the strict schema (pydantic extra="forbid")
with a validation error before the handler runs, so the store is
unchanged. -/
theorem C8_unknown_field (db : Shop.DB) (id : Nat)
    (payload : List (String × Shop.JVal)) (k : String) (v : Shop.JVal)
    (hmem : (k, v) ∈ payload) (hk1 : k ≠ "name") (hk2 : k ≠ "price") :
    Shop.patch_item_endpoint db id payload =
      (db, Shop.PatchResp.validationError) := by
  have hall : payload.all (fun kv => kv.1 == "name" || kv.1 == "price") = false := by
    by_contra hne
    have hb : payload.all (fun kv => kv.1 == "name" || kv.1 == "price") = true := by
      revert hne
      cases payload.all (fun kv => kv.1 == "name" || kv.1 == "price") <;> simp
    have hkv := List.all_eq_true.mp hb (k, v) hmem
    simp only [Bool.or_eq_true, beq_iff_eq] at hkv
    rcases hkv with h | h
    · exact hk1 h
    · exact hk2 h
  simp [Shop.patch_item_endpoint, Shop.parseItemUpdate, hall]

/-- Claim C8 witness: the theorem applied to a payload carrying the
unknown field "color" against a store with one live item. -/
theorem C8_unknown_field_witness :
    Shop.patch_item_endpoint Shop.liveStore 1 [("color", Shop.JVal.jstr "red")] =
      (Shop.liveStore, Shop.PatchResp.validationError) :=
  C8_unknown_field Shop.liveStore 1 [("color", Shop.JVal.jstr "red")] "color"
    (Shop.JVal.jstr "red") (by decide) (by decide) (by decide)

/-- Claim C9: adding item x to a cart twice leaves the association row
for x at quantity 2; adding x then a different item y leaves two
independent rows each at quantity 1; generally a repeat add increments
the existing row and a first add inserts a fresh row with quantity 1. -/
theorem C9_add_item (rows : List Shop.CartItemRow) (c x y : Nat) (hxy : x ≠ y) :
    (∀ q, Shop.rowQuantity rows c x = some q →
      Shop.rowQuantity (Shop.addItemRows rows c x) c x = some (q + 1)) ∧
    (Shop.rowQuantity rows c x = none →
      Shop.rowQuantity (Shop.addItemRows rows c x) c x = some 1) ∧
    (Shop.rowQuantity rows c x = none →
      Shop.rowQuantity (Shop.addItemRows (Shop.addItemRows rows c x) c x) c x =
        some 2) ∧
    (Shop.rowQuantity rows c x = none → Shop.rowQuantity rows c y = none →
      Shop.rowQuantity (Shop.addItemRows (Shop.addItemRows rows c x) c y) c x =
        some 1 ∧
      Shop.rowQuantity (Shop.addItemRows (Shop.addItemRows rows c x) c y) c y =
        some 1) := by
  refine ⟨?_, ?_, ?_, ?_⟩
  · intro q hq
    rw [Shop.rowQuantity_addItemRows_same, hq]
    rfl
  · intro hq
    rw [Shop.rowQuantity_addItemRows_same, hq]
    rfl
  · intro hq
    rw [Shop.rowQuantity_addItemRows_same, Shop.rowQuantity_addItemRows_same, hq]
    rfl
  · intro hqx hqy
    constructor
    · rw [Shop.rowQuantity_addItemRows_other _ _ _ _ hxy,
        Shop.rowQuantity_addItemRows_same, hqx]
      rfl
    · rw [Shop.rowQuantity_addItemRows_same,
        Shop.rowQuantity_addItemRows_other _ _ _ _ (Ne.symm hxy), hqy]
      rfl

/-- Claim C9 witness: the double-add and distinct-add parts of the
theorem applied to an empty association table, cart 1, items 1 and 2. -/
theorem C9_add_item_witness :
    Shop.rowQuantity (Shop.addItemRows (Shop.addItemRows [] 1 1) 1 1) 1 1 =
      some 2 ∧
    Shop.rowQuantity (Shop.addItemRows (Shop.addItemRows [] 1 1) 1 2) 1 1 =
      some 1 ∧
    Shop.rowQuantity (Shop.addItemRows (Shop.addItemRows [] 1 1) 1 2) 1 2 =
      some 1 := by
  have h := C9_add_item [] 1 1 2 (by decide)
  exact ⟨h.2.2.1 rfl, (h.2.2.2 rfl rfl).1, (h.2.2.2 rfl rfl).2⟩

/-- Claim C10: DELETE /item/{id} is idempotent at the public interface —
when any row with the id exists (soft-deleted or not) it answers
"item deleted", a second delete answers the same and changes nothing, and
deleting an already soft-deleted row leaves the store unchanged; "not
found" is answered only when no row with the id exists at all, while the
single-item GET hides the soft-deleted row that DELETE still accepts. -/
theorem C10_delete_idempotent (db : Shop.DB) (id : Nat) :
    (Shop.findItem db id = none →
      Shop.delete_item db id = (db, Shop.DeleteResp.notFound)) ∧
    (∀ it : Shop.Item, Shop.findItem db id = some it →
      (Shop.delete_item db id).2 = Shop.DeleteResp.deletedOk ∧
      Shop.delete_item (Shop.delete_item db id).1 id =
        ((Shop.delete_item db id).1, Shop.DeleteResp.deletedOk) ∧
      (it.deleted = true → (Shop.delete_item db id).1 = db) ∧
      Shop.findItem (Shop.delete_item db id).1 id =
        some { it with deleted := true }) := by
  constructor
  · intro h
    simp [Shop.delete_item, h]
  · intro it h
    have hfind1 : Shop.findItem (Shop.delete_item db id).1 id =
        some { it with deleted := true } := by
      simp only [Shop.delete_item, h]
      exact Shop.find?_setDeletedFirst db.items id it h
    refine ⟨by simp [Shop.delete_item, h], ?_, ?_, hfind1⟩
    · simp only [Shop.delete_item, h] at hfind1 ⊢
      simp only [Shop.delete_item, hfind1]
      rw [Shop.setDeletedFirst_idem]
    · intro hdel
      simp only [Shop.delete_item, h]
      rw [Shop.setDeletedFirst_of_deleted db.items id it h hdel]

/-- Claim C10 witness: the theorem applied to the empty store (no row:
"not found") and to a store with one live item (delete succeeds and a
second delete succeeds without further change). -/
theorem C10_delete_idempotent_witness :
    Shop.delete_item ⟨[], [], []⟩ 1 = (⟨[], [], []⟩, Shop.DeleteResp.notFound) ∧
    (Shop.delete_item Shop.liveStore 1).2 = Shop.DeleteResp.deletedOk ∧
    Shop.delete_item (Shop.delete_item Shop.liveStore 1).1 1 =
      ((Shop.delete_item Shop.liveStore 1).1, Shop.DeleteResp.deletedOk) :=
  ⟨(C10_delete_idempotent ⟨[], [], []⟩ 1).1 rfl,
   ((C10_delete_idempotent Shop.liveStore 1).2 ⟨1, "x", 5, false⟩ rfl).1,
   ((C10_delete_idempotent Shop.liveStore 1).2 ⟨1, "x", 5, false⟩ rfl).2.1⟩

